import Mathlib

/-!
Verification of the xapers schema layer (`xapers/database.py`, `xapers/documents.py`)
against its specification.

Python strings are modelled as `List Char` (`Str`): `s.find(p) == 0` is
`p.isPrefixOf s`, `s[n:]` is `List.drop n`, `'%s%s' % (a, b)` is `a ++ b`.
A Xapian document's term set is modelled as a duplicate-free list of terms
(`XDoc.terms`): `xapian.Document.add_term` on a term already present only bumps
the wdf and leaves the term set unchanged, so it is insert-if-absent;
`remove_term` is `List.erase`.  Engine-owned behaviour (the tokenizer/stemmer of
`TermGenerator.index_text`, PDF text extraction) enters as explicit function
parameters (`emit`, `parse`).  Fallible Python code is embedded in
`Except PyErr`.
-/

namespace Xapers

/-- Python strings, modelled as lists of characters. -/
abbrev Str := List Char

/-- Python runtime and xapers exceptions that the embedded code can raise. -/
inductive PyErr where
  /-- Python `TypeError` (e.g. unpacking `None`, unexpected keyword argument). -/
  | typeError : PyErr
  /-- Python `ValueError` (e.g. unpacking a string whose length is not 2). -/
  | valueError : PyErr
  /-- `xapers.documents.IllegalImportPath`. -/
  | illegalImportPath : PyErr
  /-- `xapers.documents.ImportPathExists(docid)`. -/
  | importPathExists (docid : Nat) : PyErr
  deriving DecidableEq, Repr

/-! ## Prefix registry (`Database.BOOLEAN_PREFIX_INTERNAL` etc., database.py 13-51) -/

/-- `Database.BOOLEAN_PREFIX_INTERNAL` (database.py 13-19). -/
def BOOLEAN_PREFIX_INTERNAL : List (Str × Str) :=
  [("url".data, "U".data), ("file".data, "P".data), ("type".data, "T".data)]

/-- `Database.BOOLEAN_PREFIX_EXTERNAL` (database.py 21-33). -/
def BOOLEAN_PREFIX_EXTERNAL : List (Str × Str) :=
  [("id".data, "Q".data), ("tag".data, "K".data), ("source".data, "XSOURCE:".data),
   ("fulltitle".data, "XTITLE:".data), ("fullauthors".data, "XAUTHORS:".data),
   ("year".data, "Y".data)]

/-- `Database.PROBABILISTIC_PREFIX` (database.py 35-39). -/
def PROBABILISTIC_PREFIX : List (Str × Str) :=
  [("title".data, "S".data), ("subject".data, "S".data), ("author".data, "A".data)]

/-- Python `name in D` / `D[name]` on one of the prefix dicts (keys are unique). -/
def tableLookup (tbl : List (Str × Str)) (name : Str) : Option Str :=
  (tbl.find? (fun kv => kv.1 == name)).map (·.2)

/-- `Database._find_prefix` (database.py 41-48): try the three tables in order;
an unrecognized name falls through and Python implicitly returns `None`. -/
def findPrefix (name : Str) : Option Str :=
  match tableLookup BOOLEAN_PREFIX_INTERNAL name with
  | some p => some p
  | none =>
    match tableLookup BOOLEAN_PREFIX_EXTERNAL name with
    | some p => some p
    | none =>
      match tableLookup PROBABILISTIC_PREFIX name with
      | some p => some p
      | none => none

/-- `Database._find_prefix` at a recognized name, as the callers in documents.py
use it: for every recognized name `findPrefix` is `some`, and Python would
crash before concatenating `None`, so the `[]` default is unreachable there. -/
def prefixOf (name : Str) : Str :=
  (findPrefix name).getD []

/-- All recognized field names: the keys of the three prefix tables. -/
def fieldNames : List Str :=
  (BOOLEAN_PREFIX_INTERNAL ++ BOOLEAN_PREFIX_EXTERNAL ++ PROBABILISTIC_PREFIX).map Prod.fst

/-- `Database._make_source_prefix` (database.py 50-51): `'X%s:' % source.upper()`. -/
def makeSourcePrefix (source : Str) : Str :=
  "X".data ++ source.map Char.toUpper ++ ":".data

/-! ## Path resolver (`Database._basename_for_path`, database.py 96-107) -/

/-- `Database._basename_for_path` (database.py 98-107), with the database's
`self.root` passed explicitly.  `path.find('/') == 0` is "starts with `/`";
`path.find(self.root) == 0` is "starts with root"; `path[len(root):]` drops
`root.length` characters. -/
def basenameForPath (root path : Str) : Option Str :=
  if ("/".data).isPrefixOf path then
    if root.isPrefixOf path then
      some (path.drop root.length)
    else
      none
  else
    some path

/-! ## Document model (`documents.py`) -/

/-- An in-memory `xapian.Document` together with the docid xapers assigned to
it: the duplicate-free term set and the opaque data blob. -/
structure XDoc where
  docid : Nat
  terms : List Str := []
  blob : Str := []
  deriving DecidableEq, Repr

/-- `xapian.Document.add_term`: adding a term already in the term set only
bumps its wdf, so on the term set it is insert-if-absent. -/
def addTermRaw (l : List Str) (t : Str) : List Str :=
  if t ∈ l then l else l ++ [t]

/-- `Document._add_term` (documents.py 96-98): add the term `prefix ++ value`. -/
def addTerm (d : XDoc) (p v : Str) : XDoc :=
  { d with terms := addTermRaw d.terms (p ++ v) }

/-- `Document._remove_term` (documents.py 101-103): remove the term
`prefix ++ value` from the term set. -/
def removeTerm (d : XDoc) (p v : Str) : XDoc :=
  { d with terms := d.terms.erase (p ++ v) }

/-- Body of `Document._get_terms` (documents.py 120-126) on a term list:
the suffixes, after the prefix, of all terms starting with the prefix. -/
def getTermsL (l : List Str) (p : Str) : List Str :=
  (l.filter (fun t => p.isPrefixOf t)).map (fun t => t.drop p.length)

/-- `Document._get_terms` (documents.py 120-126). -/
def getTerms (d : XDoc) (p : Str) : List Str :=
  getTermsL d.terms p

/-- `Document.set_data` (documents.py 129-130). -/
def setData (d : XDoc) (text : Str) : XDoc :=
  { d with blob := text }

/-- `Document._gen_terms` (documents.py 111-116).  The engine-owned
tokenizer/stemmer is the parameter `emit`: `emit po text` is the list of terms
`xapian.TermGenerator.index_text` adds for `text` (with term prefix `po`, or
unprefixed for `none`).  `index_text` only ever adds terms. -/
def genTerms (emit : Option Str → Str → List Str) (d : XDoc) (po : Option Str)
    (text : Str) : XDoc :=
  let d1 :=
    match po with
    | some p => (emit (some p) text).foldl (fun acc t => { acc with terms := addTermRaw acc.terms t }) d
    | none => d
  (emit none text).foldl (fun acc t => { acc with terms := addTermRaw acc.terms t }) d1

/-- The removal loop shared by `set_url`, `set_title`, `set_authors`,
`set_year` and `remove_source`:
`for term in self._get_terms(prefix): self._remove_term(prefix, term)`. -/
def removeTermsWith (d : XDoc) (p : Str) : XDoc :=
  (getTerms d p).foldl (fun acc term => removeTerm acc p term) d

/-! ## Database state (`database.py`) -/

/-- The state behind one open xapers `Database`: the configured root, the
engine's persisted docid high-water mark (`get_lastdocid`), and the persisted
documents. -/
structure DB where
  root : Str
  lastdocid : Nat
  docs : List XDoc
  deriving Repr

/-- `Database._generate_docid` (database.py 93-94):
`self.xapian_db.get_lastdocid() + 1`. -/
def generateDocid (db : DB) : Nat :=
  db.lastdocid + 1

/-- The fresh-document branch of `Document.__init__` (documents.py 80-83): a
new empty `xapian.Document`, a docid from `_generate_docid`, and its own id
term.  It only reads the database (`get_lastdocid`); the database state is
unchanged until `sync`. -/
def documentInit (db : DB) : XDoc :=
  let docid := generateDocid db
  addTerm { docid := docid } (prefixOf "id".data) (Nat.repr docid).data

/-- `xapian.WritableDatabase.replace_document(docid, doc)`: replace the
document stored under that id, or add it under that id if absent. -/
def replaceOrInsert (docs : List XDoc) (d : XDoc) : List XDoc :=
  if docs.any (fun e => e.docid == d.docid) then
    docs.map (fun e => if e.docid == d.docid then d else e)
  else
    docs ++ [d]

/-- `Document.sync` (documents.py 85-86):
`self.db.xapian_db.replace_document(self.docid, self.doc)`.  The engine's
docid high-water mark rises to the replaced id if it is larger. -/
def sync (db : DB) (d : XDoc) : DB :=
  { db with lastdocid := max db.lastdocid d.docid,
            docs := replaceOrInsert db.docs d }

/-- `Database._doc_for_term` (database.py 158-167): query for the exact term
with `get_mset(0, 2)` and return the first match, `None` on no match.  No
exception is raised on two matches (the FIXME at database.py 163). -/
def docForTerm (db : DB) (term : Str) : Option XDoc :=
  let mset := (db.docs.filter (fun d => term ∈ d.terms)).take 2
  match mset with
  | [] => none
  | m :: _ => some m

/-- `Database.doc_for_docid` (database.py 169-172); the docid arrives as a
string and is concatenated after the `id` prefix. -/
def docForDocid (db : DB) (docid : Str) : Option XDoc :=
  docForTerm db (prefixOf "id".data ++ docid)

/-- `Database.doc_for_path` (database.py 174-177). -/
def docForPath (db : DB) (path : Str) : Option XDoc :=
  docForTerm db (prefixOf "file".data ++ path)

/-- The parameter names of `Database._search(self, query_string, limit=0)`
(database.py 129), against which Python binds keyword arguments. -/
def searchParamNames : List Str :=
  ["query_string".data, "limit".data]

/-- Modelled from the spec: `get_matches_estimated` on the match set of a
query, the engine's (possibly approximate) estimated number of matching
documents; `"*"` matches every document.  The query parser itself is
engine-owned. -/
def matchesEstimated (db : DB) (query_string : Str) : Nat :=
  if query_string = "*".data then db.docs.length
  else (db.docs.filter (fun d => query_string ∈ d.terms)).length

/-- `Database.count` (database.py 154-156): the body is
`self._search(query_string, count=0).get_matches_estimated()`.  `_search` has
no parameter named `count` (its parameters are `query_string` and `limit`), so
Python keyword binding raises `TypeError` before any search is executed; the
estimate is only returned in the (unreachable) case that the keyword binds. -/
def count (db : DB) (query_string : Str) : Except PyErr Nat :=
  if "count".data ∈ searchParamNames then
    Except.ok (matchesEstimated db query_string)
  else
    Except.error PyErr.typeError

/-! ## Sources (documents.py 198-234) -/

/-- `Document._add_source` (documents.py 198-202): a membership term under the
`source` prefix plus an id term under the source's dynamic prefix. -/
def addSource (d : XDoc) (source sid : Str) : XDoc :=
  addTerm (addTerm d (prefixOf "source".data) source) (makeSourcePrefix source) sid

/-- `Document.get_source_id` (documents.py 209-217): first term under the
source's dynamic prefix, `None` if there is none. -/
def getSourceId (d : XDoc) (source : Str) : Option Str :=
  match getTerms d (makeSourcePrefix source) with
  | [] => none
  | sid :: _ => some sid

/-- The loop of `Document.get_sources` (documents.py 222-226): walk the terms
under the `source` prefix, stopping at an empty one (`if not source: break`),
and pair each source name with its id. -/
def getSourcesGo (d : XDoc) : List Str → List (Str × Option Str)
  | [] => []
  | s :: rest =>
    if s = [] then []
    else (s, getSourceId d s) :: getSourcesGo d rest

/-- `Document.get_sources` (documents.py 219-227), the `source: sid` dict as
an association list. -/
def getSources (d : XDoc) : List (Str × Option Str) :=
  getSourcesGo d (getTerms d (prefixOf "source".data))

/-- `Document.remove_source` (documents.py 229-234): remove every id term
under the source's dynamic prefix, then the membership term. -/
def removeSource (d : XDoc) (source : Str) : XDoc :=
  removeTerm (removeTermsWith d (makeSourcePrefix source))
    (prefixOf "source".data) source

/-! ## Single value fields (documents.py 262-345) -/

/-- `Document.set_url` (documents.py 265-270): remove every term under the
`url` prefix, then add the new one. -/
def setUrl (d : XDoc) (url : Str) : XDoc :=
  addTerm (removeTermsWith d (prefixOf "url".data)) (prefixOf "url".data) url

/-- `Document.get_url` (documents.py 272-279): first term under the `url`
prefix, the empty string if there is none. -/
def getUrl (d : XDoc) : Str :=
  match getTerms d (prefixOf "url".data) with
  | [] => []
  | url :: _ => url

/-- `Document.set_title` (documents.py 282-294): clear the probabilistic
title terms (`S`), their stemmed forms (`ZS`) and the verbatim copy
(`fulltitle`), then re-generate the tokenized terms and add the verbatim
term. -/
def setTitle (emit : Option Str → Str → List Str) (d : XDoc) (title : Str) : XDoc :=
  let pt := prefixOf "title".data
  let pf := prefixOf "fulltitle".data
  let d := removeTermsWith d pt
  let d := removeTermsWith d "ZS".data
  let d := removeTermsWith d pf
  let d := genTerms emit d (some pt) title
  addTerm d pf title

/-- `Document.get_title` (documents.py 296-302): first term under the
`fulltitle` prefix, the empty string if there is none. -/
def getTitle (d : XDoc) : Str :=
  match getTerms d (prefixOf "fulltitle".data) with
  | [] => []
  | title :: _ => title

/-- `Document.set_authors` (documents.py 305-320): same shape as `set_title`
with the `author`/`ZA`/`fullauthors` prefixes. -/
def setAuthors (emit : Option Str → Str → List Str) (d : XDoc) (authors : Str) : XDoc :=
  let pa := prefixOf "author".data
  let pf := prefixOf "fullauthors".data
  let d := removeTermsWith d pa
  let d := removeTermsWith d "ZA".data
  let d := removeTermsWith d pf
  let d := genTerms emit d (some pa) authors
  addTerm d pf authors

/-- `Document.get_authors` (documents.py 322-328): first term under the
`fullauthors` prefix, the empty string if there is none. -/
def getAuthors (d : XDoc) : Str :=
  match getTerms d (prefixOf "fullauthors".data) with
  | [] => []
  | authors :: _ => authors

/-- `Document.set_year` (documents.py 331-336): remove every term under the
`year` prefix, then add the new one. -/
def setYear (d : XDoc) (year : Str) : XDoc :=
  addTerm (removeTermsWith d (prefixOf "year".data)) (prefixOf "year".data) year

/-- `Document.get_year` (documents.py 338-345): first term under the `year`
prefix, the empty string if there is none. -/
def getYear (d : XDoc) : Str :=
  match getTerms d (prefixOf "year".data) with
  | [] => []
  | year :: _ => year

/-! ## File import (documents.py 132-172) -/

/-- Python tuple unpacking `base, full = v` where `v` is what
`Database._basename_for_path` actually returns — a single string or `None`:
unpacking `None` raises `TypeError`; unpacking a string yields its characters,
so it succeeds only when the string has exactly two, else `ValueError`. -/
def unpack2 (v : Option Str) : Except PyErr (Str × Str) :=
  match v with
  | none => Except.error PyErr.typeError
  | some s =>
    match s with
    | [a, b] => Except.ok ([a], [b])
    | _ => Except.error PyErr.valueError

/-- `Document.add_path` (documents.py 132-135). -/
def addPath (db : DB) (d : XDoc) (path : Str) : Except PyErr XDoc := do
  let (base, _full) ← unpack2 (basenameForPath db.root path)
  return addTerm d (prefixOf "file".data) base

/-- `Document._index_file` (documents.py 140-150): extract the file's text
(`parse`, the external PDF parser), feed it unprefixed to the term generator,
and build the truncated, newline-stripped summary
(`text[0:997].translate(None, '\n') + '...'`). -/
def indexFile (emit : Option Str → Str → List Str) (parse : Str → Str)
    (db : DB) (d : XDoc) (path : Str) : Except PyErr (XDoc × Str) := do
  let (_base, full) ← unpack2 (basenameForPath db.root path)
  let text := parse full
  let d := genTerms emit d none text
  let summary := (text.take 997).filter (fun c => c ≠ '\n') ++ "...".data
  return (d, summary)

/-- `Document.add_file` (documents.py 155-172): resolve the path, fail with
`IllegalImportPath` on an empty base, fail with `ImportPathExists(docid)` when
a document already holds that exact path term, otherwise index the file, add
the path term and store the summary as the data blob. -/
def addFile (emit : Option Str → Str → List Str) (parse : Str → Str)
    (db : DB) (d : XDoc) (path : Str) : Except PyErr XDoc := do
  let (base, full) ← unpack2 (basenameForPath db.root path)
  if base = [] then
    throw PyErr.illegalImportPath
  else
    match docForPath db base with
    | some doc0 => throw (PyErr.importPathExists doc0.docid)
    | none => do
      let (d, summary) ← indexFile emit parse db d full
      let d ← addPath db d path
      return setData d summary

end Xapers

namespace Xapers

/-! ## Lemmas about the term set operations -/

theorem mem_addTermRaw_iff {l : List Str} {u t : Str} :
    t ∈ addTermRaw l u ↔ t ∈ l ∨ t = u := by
  unfold addTermRaw
  split
  · next hm =>
    constructor
    · exact Or.inl
    · rintro (h | rfl)
      · exact h
      · exact hm
  · simp

theorem mem_addTermRaw {l : List Str} {t : Str} (u : Str) (h : t ∈ l) :
    t ∈ addTermRaw l u :=
  mem_addTermRaw_iff.mpr (Or.inl h)

theorem nodup_addTermRaw {l : List Str} (u : Str) (h : l.Nodup) :
    (addTermRaw l u).Nodup := by
  unfold addTermRaw
  split
  · exact h
  · next hu => simp [List.nodup_append, h, hu]

theorem isPrefixOf_append (p v : Str) : p.isPrefixOf (p ++ v) = true := by
  rw [List.isPrefixOf_iff_prefix]
  exact List.prefix_append p v

theorem append_drop_of_isPrefixOf {p t : Str} (h : p.isPrefixOf t = true) :
    p ++ t.drop p.length = t := by
  rw [List.isPrefixOf_iff_prefix] at h
  obtain ⟨s, rfl⟩ := h
  rw [List.drop_left]

/-- The removal loop, projected to the underlying term list. -/
theorem foldl_removeTerm_terms (sufs : List Str) (p : Str) (d : XDoc) :
    (sufs.foldl (fun acc term => removeTerm acc p term) d).terms
      = sufs.foldl (fun l term => l.erase (p ++ term)) d.terms := by
  induction sufs generalizing d with
  | nil => rfl
  | cons s rest ih =>
    simp only [List.foldl_cons]
    exact ih (removeTerm d p s)

/-- On a duplicate-free term set, the removal loop of the single-value setters
and `remove_source` removes exactly the terms carrying the prefix. -/
theorem removeTermsWith_terms (d : XDoc) (p : Str) (h : d.terms.Nodup) :
    (removeTermsWith d p).terms
      = d.terms.filter (fun t => !(p.isPrefixOf t)) := by
  unfold removeTermsWith getTerms getTermsL
  rw [foldl_removeTerm_terms, List.foldl_map]
  rw [List.foldl_ext (fun l t => l.erase (p ++ t.drop p.length)) List.erase d.terms
      (l := d.terms.filter (fun t => p.isPrefixOf t))
      (fun a b hb => by
        show a.erase (p ++ b.drop p.length) = a.erase b
        rw [append_drop_of_isPrefixOf (List.of_mem_filter hb)])]
  rw [← List.diff_eq_foldl, h.diff_eq_filter]
  refine List.filter_congr (fun t ht => ?_)
  by_cases hp : p.isPrefixOf t = true
  · simp [List.mem_filter, ht, hp]
  · simp [List.mem_filter, ht, hp]

theorem not_prefixed_of_mem_removeTermsWith {d : XDoc} {p : Str}
    (h : d.terms.Nodup) {t : Str} (ht : t ∈ (removeTermsWith d p).terms) :
    p.isPrefixOf t = false := by
  rw [removeTermsWith_terms d p h] at ht
  simpa using List.of_mem_filter ht

theorem nodup_removeTermsWith (d : XDoc) (p : Str) (h : d.terms.Nodup) :
    (removeTermsWith d p).terms.Nodup := by
  rw [removeTermsWith_terms d p h]
  exact h.filter _

/-- Adding a prefixed term to a document with no term under that prefix leaves
exactly that one term under the prefix. -/
theorem getTerms_addTerm (d : XDoc) (p v : Str)
    (h : ∀ t ∈ d.terms, p.isPrefixOf t = false) :
    getTerms (addTerm d p v) p = [v] := by
  have hmem : (p ++ v) ∉ d.terms := fun hm => by
    have hfalse := h _ hm
    rw [isPrefixOf_append] at hfalse
    cases hfalse
  have hnil : d.terms.filter (fun t => p.isPrefixOf t) = [] :=
    List.filter_eq_nil_iff.mpr (fun t ht => by simp [h t ht])
  unfold getTerms getTermsL addTerm addTermRaw
  rw [if_neg hmem, List.filter_append, hnil]
  simp [isPrefixOf_append, List.drop_left]

theorem mem_foldl_addTermRaw (ts : List Str) (d : XDoc) {t : Str}
    (h : t ∈ d.terms) :
    t ∈ (ts.foldl (fun acc u => { acc with terms := addTermRaw acc.terms u }) d).terms := by
  induction ts generalizing d with
  | nil => exact h
  | cons s rest ih =>
    simp only [List.foldl_cons]
    exact ih _ (mem_addTermRaw s h)

theorem pred_foldl_addTermRaw {P : Str → Prop} (ts : List Str) (d : XDoc)
    (hd : ∀ t ∈ d.terms, P t) (hts : ∀ t ∈ ts, P t) :
    ∀ t ∈ (ts.foldl (fun acc u => { acc with terms := addTermRaw acc.terms u }) d).terms, P t := by
  induction ts generalizing d with
  | nil => exact hd
  | cons s rest ih =>
    simp only [List.foldl_cons]
    refine ih _ (fun u hu => ?_) (fun u hu => hts u (List.mem_cons_of_mem _ hu))
    rcases mem_addTermRaw_iff.mp hu with h' | rfl
    · exact hd u h'
    · exact hts u (List.mem_cons_self u rest)

theorem nodup_foldl_addTermRaw (ts : List Str) (d : XDoc) (h : d.terms.Nodup) :
    (ts.foldl (fun acc u => { acc with terms := addTermRaw acc.terms u }) d).terms.Nodup := by
  induction ts generalizing d with
  | nil => exact h
  | cons s rest ih =>
    simp only [List.foldl_cons]
    exact ih _ (nodup_addTermRaw s h)

/-- `_gen_terms` only ever adds terms. -/
theorem mem_genTerms (emit : Option Str → Str → List Str) (d : XDoc)
    (po : Option Str) (text : Str) {t : Str} (h : t ∈ d.terms) :
    t ∈ (genTerms emit d po text).terms := by
  unfold genTerms
  cases po with
  | none => exact mem_foldl_addTermRaw _ _ h
  | some p => exact mem_foldl_addTermRaw _ _ (mem_foldl_addTermRaw _ _ h)

theorem pred_genTerms {P : Str → Prop} (emit : Option Str → Str → List Str)
    (d : XDoc) (po : Option Str) (text : Str)
    (hd : ∀ t ∈ d.terms, P t)
    (hemit : ∀ po2 t, t ∈ emit po2 text → P t) :
    ∀ t ∈ (genTerms emit d po text).terms, P t := by
  unfold genTerms
  cases po with
  | none => exact pred_foldl_addTermRaw _ _ hd (hemit none)
  | some p =>
    exact pred_foldl_addTermRaw _ _
      (pred_foldl_addTermRaw _ _ hd (hemit (some p))) (hemit none)

theorem nodup_genTerms (emit : Option Str → Str → List Str) (d : XDoc)
    (po : Option Str) (text : Str) (h : d.terms.Nodup) :
    (genTerms emit d po text).terms.Nodup := by
  unfold genTerms
  cases po with
  | none => exact nodup_foldl_addTermRaw _ _ h
  | some p => exact nodup_foldl_addTermRaw _ _ (nodup_foldl_addTermRaw _ _ h)

theorem nodup_addTerm (d : XDoc) (p v : Str) (h : d.terms.Nodup) :
    (addTerm d p v).terms.Nodup :=
  nodup_addTermRaw _ h

/-- One call of a plain single-value setter (`set_url`/`set_year` shape)
leaves exactly the new value under the prefix. -/
theorem replace_setter_getTerms (d : XDoc) (p v : Str) (h : d.terms.Nodup) :
    getTerms (addTerm (removeTermsWith d p) p v) p = [v] :=
  getTerms_addTerm _ _ _ (fun _ ht => not_prefixed_of_mem_removeTermsWith h ht)

/-- One call of a dual-encoded setter (`set_title`/`set_authors` shape) leaves
exactly the new value under the verbatim prefix `pf`, provided the engine's
tokenizer does not emit terms carrying `pf` itself. -/
theorem verbatim_setter_getTerms (emit : Option Str → Str → List Str)
    (d : XDoc) (pt pz pf v : Str) (h : d.terms.Nodup)
    (hemit : ∀ po t, t ∈ emit po v → pf.isPrefixOf t = false) :
    getTerms (addTerm (genTerms emit
        (removeTermsWith (removeTermsWith (removeTermsWith d pt) pz) pf)
        (some pt) v) pf v) pf = [v] := by
  have h1 : (removeTermsWith d pt).terms.Nodup := nodup_removeTermsWith _ _ h
  have h2 : (removeTermsWith (removeTermsWith d pt) pz).terms.Nodup :=
    nodup_removeTermsWith _ _ h1
  exact getTerms_addTerm _ _ _
    (pred_genTerms _ _ _ _
      (fun t ht => not_prefixed_of_mem_removeTermsWith h2 ht)
      (fun po t ht => hemit po t ht))

theorem setUrl_nodup (d : XDoc) (v : Str) (h : d.terms.Nodup) :
    (setUrl d v).terms.Nodup :=
  nodup_addTerm _ _ _ (nodup_removeTermsWith _ _ h)

theorem setYear_nodup (d : XDoc) (v : Str) (h : d.terms.Nodup) :
    (setYear d v).terms.Nodup :=
  nodup_addTerm _ _ _ (nodup_removeTermsWith _ _ h)

theorem setTitle_nodup (emit : Option Str → Str → List Str) (d : XDoc)
    (v : Str) (h : d.terms.Nodup) : (setTitle emit d v).terms.Nodup :=
  nodup_addTerm _ _ _ (nodup_genTerms _ _ _ _
    (nodup_removeTermsWith _ _ (nodup_removeTermsWith _ _
      (nodup_removeTermsWith _ _ h))))

theorem setAuthors_nodup (emit : Option Str → Str → List Str) (d : XDoc)
    (v : Str) (h : d.terms.Nodup) : (setAuthors emit d v).terms.Nodup :=
  nodup_addTerm _ _ _ (nodup_genTerms _ _ _ _
    (nodup_removeTermsWith _ _ (nodup_removeTermsWith _ _
      (nodup_removeTermsWith _ _ h))))

/-- The keys `get_sources` returns all come from the term suffixes its loop
walked. -/
theorem getSourcesGo_keys_subset (d : XDoc) (l : List Str) :
    ∀ x ∈ (getSourcesGo d l).map Prod.fst, x ∈ l := by
  induction l with
  | nil => intro x hx; simp [getSourcesGo] at hx
  | cons s rest ih =>
    intro x hx
    unfold getSourcesGo at hx
    split at hx
    · simp at hx
    · simp only [List.map_cons, List.mem_cons] at hx
      rcases hx with rfl | hx
      · exact List.mem_cons_self _ _
      · exact List.mem_cons_of_mem _ (ih x hx)

/-! ## Claim C1: prefix disjointness -/

/-- C1 counterexample: `title` and `subject` are distinct recognized field
names, yet `_find_prefix` returns the same prefix `'S'` for both, so the
claimed disjointness `prefix(f1) != prefix(f2)` for all distinct recognized
`f1, f2` is false. -/
theorem spec_C1_counterexample :
    "title".data ∈ fieldNames ∧ "subject".data ∈ fieldNames ∧
    "title".data ≠ "subject".data ∧
    findPrefix "title".data = findPrefix "subject".data ∧
    findPrefix "title".data = some "S".data := by
  decide

/-- C1 (amended): for every pair of distinct recognized field names other than
the pair `title`/`subject` (which deliberately share the probabilistic prefix
`'S'`), the prefixes returned by `_find_prefix` differ. -/
theorem spec_C1_amended (f1 f2 : Str) (h1 : f1 ∈ fieldNames) (h2 : f2 ∈ fieldNames)
    (hne : f1 ≠ f2)
    (hts : ¬(f1 = "title".data ∧ f2 = "subject".data))
    (hst : ¬(f1 = "subject".data ∧ f2 = "title".data)) :
    findPrefix f1 ≠ findPrefix f2 := by
  fin_cases h1 <;> fin_cases h2 <;> revert hne hts hst <;> decide

/-- C1 amended witness: concrete instance `url` vs `file`. -/
theorem spec_C1_amended_witness :
    findPrefix "url".data ≠ findPrefix "file".data :=
  spec_C1_amended "url".data "file".data (by decide) (by decide)
    (by decide) (by decide) (by decide)

/-! ## Claim C6: path resolver cases -/

/-- C6: `_basename_for_path` returns the path unchanged when it does not start
with a path separator; returns the remainder after stripping the root when the
path is absolute and the root is a prefix of it; and returns `None` when the
path is absolute and the root is not a prefix of it. -/
theorem spec_C6 (root path : Str) :
    (("/".data).isPrefixOf path = false → basenameForPath root path = some path) ∧
    (("/".data).isPrefixOf path = true → root.isPrefixOf path = true →
      basenameForPath root path = some (path.drop root.length)) ∧
    (("/".data).isPrefixOf path = true → root.isPrefixOf path = false →
      basenameForPath root path = none) := by
  refine ⟨fun h => ?_, fun h hr => ?_, fun h hr => ?_⟩
  · simp [basenameForPath, h]
  · simp [basenameForPath, h, hr]
  · simp [basenameForPath, h, hr]

/-- C6 witness: absolute path under the root `/r` resolves to the stripped
remainder. -/
theorem spec_C6_witness :
    basenameForPath "/r".data "/r/x".data = some "/x".data :=
  ((spec_C6 "/r".data "/r/x".data).2.1 (by decide) (by decide)).trans (by decide)

/-! ## Claim C2: docid allocation for unsynced documents -/

/-- C2 counterexample: on a database whose high-water mark is 5, a freshly
constructed in-memory `Document` is allocated docid 6, and — the construction
having left the database state untouched, since it only reads
`get_lastdocid` — the very next `_generate_docid` call on that same session
hands out 6 again, although that `Document` was never synced.  The claim that
the id is never returned again is false. -/
theorem spec_C2_counterexample :
    (documentInit ⟨"/r".data, 5, []⟩).docid = 6 ∧
    generateDocid ⟨"/r".data, 5, []⟩ = 6 :=
  ⟨rfl, rfl⟩

/-- C2 (amended): `_generate_docid` reads the engine's persisted high-water
mark, which constructing an in-memory `Document` does not advance: a docid
allocated to a fresh `Document` that is discarded without `sync` is handed out
again by the next `_generate_docid` call; only after the `Document` is synced
does `_generate_docid` move past it, returning `docid + 1`. -/
theorem spec_C2_amended (db : DB) :
    generateDocid db = (documentInit db).docid ∧
    generateDocid (sync db (documentInit db)) = (documentInit db).docid + 1 := by
  refine ⟨rfl, ?_⟩
  show max db.lastdocid (db.lastdocid + 1) + 1 = db.lastdocid + 1 + 1
  rw [Nat.max_eq_right (Nat.le_succ _)]

/-! ## Claim C7: count -/

/-- C7: `Database.count` never returns the estimated match count: its call
`self._search(query_string, count=0)` passes a keyword argument `count` that
`_search` (parameters `query_string`, `limit`) does not accept, so every call
fails with a Python `TypeError` instead of returning an integer. -/
theorem spec_C7_code (db : DB) (query_string : Str) :
    count db query_string = Except.error PyErr.typeError := by
  rfl

/-! ## Claim C8: unique-term lookup -/

/-- C8: a database in which two documents carry the same id term `Qx`.  The
exact-term lookup `doc_for_docid` does not fail with any ambiguous-match
error: it silently returns the first of the two matching documents (the FIXME
at database.py 163 records the missing exception).  The zero-match half of the
claim does hold: the lookup returns `None` for an unmatched id. -/
theorem spec_C8_code :
    ((DB.mk "/r".data 2 [⟨1, ["Qx".data], []⟩, ⟨2, ["Qx".data], []⟩]).docs.filter
        (fun d => (prefixOf "id".data ++ "x".data) ∈ d.terms)).length = 2 ∧
    (docForDocid ⟨"/r".data, 2, [⟨1, ["Qx".data], []⟩, ⟨2, ["Qx".data], []⟩]⟩
        "x".data).map XDoc.docid = some 1 ∧
    docForDocid ⟨"/r".data, 2, [⟨1, ["Qx".data], []⟩, ⟨2, ["Qx".data], []⟩]⟩
        "y".data = none := by
  refine ⟨?_, ?_, ?_⟩ <;> decide

/-! ## Claim C4: single-valued setters replace -/

/-- C4: for each single-valued field (url, year, and the verbatim
fulltitle/fullauthors copies), calling the setter with `v1` and then `v2`
leaves exactly one term under that field's prefix, equal to `v2`.  The
document's term set is duplicate-free (as in Xapian), and the engine's
tokenizer is assumed never to emit a term carrying the verbatim `XTITLE:` or
`XAUTHORS:` prefixes (its terms are lowercased words, optionally behind the
probabilistic `S`/`A` or stemmed `Z` prefixes). -/
theorem spec_C4 (emit : Option Str → Str → List Str) (d : XDoc) (v1 v2 : Str)
    (h : d.terms.Nodup)
    (hemit : ∀ po text t, t ∈ emit po text →
      "XTITLE:".data.isPrefixOf t = false ∧ "XAUTHORS:".data.isPrefixOf t = false) :
    getTerms (setUrl (setUrl d v1) v2) (prefixOf "url".data) = [v2] ∧
    getTerms (setYear (setYear d v1) v2) (prefixOf "year".data) = [v2] ∧
    getTerms (setTitle emit (setTitle emit d v1) v2) (prefixOf "fulltitle".data) = [v2] ∧
    getTerms (setAuthors emit (setAuthors emit d v1) v2) (prefixOf "fullauthors".data) = [v2] := by
  refine ⟨?_, ?_, ?_, ?_⟩
  · exact replace_setter_getTerms _ _ _ (setUrl_nodup d v1 h)
  · exact replace_setter_getTerms _ _ _ (setYear_nodup d v1 h)
  · exact verbatim_setter_getTerms emit _ _ _ _ _ (setTitle_nodup emit d v1 h)
      (fun po t ht => (hemit po v2 t ht).1)
  · exact verbatim_setter_getTerms emit _ _ _ _ _ (setAuthors_nodup emit d v1 h)
      (fun po t ht => (hemit po v2 t ht).2)

/-- C4 witness: concrete document, empty tokenizer output. -/
theorem spec_C4_witness :
    getTerms (setUrl (setUrl ⟨1, [], []⟩ "a".data) "b".data) (prefixOf "url".data) = ["b".data] ∧
    getTerms (setYear (setYear ⟨1, [], []⟩ "a".data) "b".data) (prefixOf "year".data) = ["b".data] ∧
    getTerms (setTitle (fun _ _ => []) (setTitle (fun _ _ => []) ⟨1, [], []⟩ "a".data) "b".data)
      (prefixOf "fulltitle".data) = ["b".data] ∧
    getTerms (setAuthors (fun _ _ => []) (setAuthors (fun _ _ => []) ⟨1, [], []⟩ "a".data) "b".data)
      (prefixOf "fullauthors".data) = ["b".data] :=
  spec_C4 (fun _ _ => []) ⟨1, [], []⟩ "a".data "b".data (by decide)
    (fun _ _ t ht => absurd ht (List.not_mem_nil t))

/-! ## Claim C5: source removal -/

/-- C5: on a document holding a source entry, `remove_source` removes both
the membership term under the `source` prefix and every id term under that
source's dynamic prefix; afterwards `get_sources()` no longer includes the
source and `get_source_id(source)` returns `None`. -/
theorem spec_C5 (d : XDoc) (source : Str) (h : d.terms.Nodup)
    (_hsrc : (prefixOf "source".data ++ source) ∈ d.terms) :
    (prefixOf "source".data ++ source) ∉ (removeSource d source).terms ∧
    (∀ t ∈ (removeSource d source).terms,
      (makeSourcePrefix source).isPrefixOf t = false) ∧
    getSourceId (removeSource d source) source = none ∧
    source ∉ (getSources (removeSource d source)).map Prod.fst := by
  have hterms : (removeSource d source).terms
      = (d.terms.filter (fun t => !((makeSourcePrefix source).isPrefixOf t))).erase
          (prefixOf "source".data ++ source) := by
    unfold removeSource removeTerm
    rw [removeTermsWith_terms _ _ h]
  have hfn : (d.terms.filter
      (fun t => !((makeSourcePrefix source).isPrefixOf t))).Nodup := h.filter _
  have h1 : (prefixOf "source".data ++ source) ∉ (removeSource d source).terms := by
    rw [hterms]
    intro hm
    exact absurd rfl (hfn.mem_erase_iff.mp hm).1
  have h2 : ∀ t ∈ (removeSource d source).terms,
      (makeSourcePrefix source).isPrefixOf t = false := by
    intro t ht
    rw [hterms] at ht
    simpa using List.of_mem_filter (List.mem_of_mem_erase ht)
  have h3 : getSourceId (removeSource d source) source = none := by
    have hnil : getTerms (removeSource d source) (makeSourcePrefix source) = [] := by
      unfold getTerms getTermsL
      rw [List.filter_eq_nil_iff.mpr (fun t ht => by simp [h2 t ht])]
      rfl
    unfold getSourceId
    rw [hnil]
  refine ⟨h1, h2, h3, fun hm => ?_⟩
  have hk := getSourcesGo_keys_subset _ _ _ hm
  unfold getTerms getTermsL at hk
  simp only [List.mem_map, List.mem_filter] at hk
  obtain ⟨t, ⟨htm, hpre⟩, hdrop⟩ := hk
  have ht' : t = prefixOf "source".data ++ source := by
    rw [← hdrop]
    exact (append_drop_of_isPrefixOf hpre).symm
  exact h1 (ht' ▸ htm)

/-- C5 witness: a document holding the source `doi` with id `10.1`, plus a
tag term. -/
theorem spec_C5_witness :
    (prefixOf "source".data ++ "doi".data) ∉
      (removeSource ⟨1, ["XSOURCE:doi".data, "XDOI:10.1".data, "Kfoo".data], []⟩ "doi".data).terms ∧
    (∀ t ∈ (removeSource ⟨1, ["XSOURCE:doi".data, "XDOI:10.1".data, "Kfoo".data], []⟩ "doi".data).terms,
      (makeSourcePrefix "doi".data).isPrefixOf t = false) ∧
    getSourceId (removeSource ⟨1, ["XSOURCE:doi".data, "XDOI:10.1".data, "Kfoo".data], []⟩ "doi".data)
      "doi".data = none ∧
    "doi".data ∉ (getSources
      (removeSource ⟨1, ["XSOURCE:doi".data, "XDOI:10.1".data, "Kfoo".data], []⟩ "doi".data)).map Prod.fst :=
  spec_C5 ⟨1, ["XSOURCE:doi".data, "XDOI:10.1".data, "Kfoo".data], []⟩ "doi".data
    (by decide) (by decide)

/-! ## Claim C9: term generation accumulates -/

/-- C9: `_gen_terms` never removes terms: every term of the document survives
a call, so in particular every term present after a first call with some text
is still present after a second call with the same text — tokenized terms
accumulate rather than being replaced. -/
theorem spec_C9 (emit : Option Str → Str → List Str) (po : Option Str)
    (text : Str) (d : XDoc) :
    (∀ t ∈ d.terms, t ∈ (genTerms emit d po text).terms) ∧
    (∀ t ∈ (genTerms emit d po text).terms,
      t ∈ (genTerms emit (genTerms emit d po text) po text).terms) :=
  ⟨fun _ ht => mem_genTerms emit d po text ht,
   fun _ ht => mem_genTerms emit _ po text ht⟩

/-- C9 witness: an existing tag term survives an unprefixed indexing pass. -/
theorem spec_C9_witness :
    "Kx".data ∈ (genTerms (fun _ _ => ["w".data]) ⟨1, ["Kx".data], []⟩
      none "hi".data).terms :=
  (spec_C9 (fun _ _ => ["w".data]) none "hi".data ⟨1, ["Kx".data], []⟩).1
    "Kx".data (by decide)

/-! ## Claim C10: single-valued getters -/

/-- C10: `get_url`, `get_title`, `get_authors` and `get_year` return the
first term under their field's prefix, and the empty string — not `None` and
not an error — when no term under the prefix exists. -/
theorem spec_C10 (d : XDoc) :
    getUrl d = (getTerms d (prefixOf "url".data)).headD [] ∧
    getTitle d = (getTerms d (prefixOf "fulltitle".data)).headD [] ∧
    getAuthors d = (getTerms d (prefixOf "fullauthors".data)).headD [] ∧
    getYear d = (getTerms d (prefixOf "year".data)).headD [] := by
  refine ⟨?_, ?_, ?_, ?_⟩
  · cases h : getTerms d (prefixOf "url".data) <;> simp [getUrl, h]
  · cases h : getTerms d (prefixOf "fulltitle".data) <;> simp [getTitle, h]
  · cases h : getTerms d (prefixOf "fullauthors".data) <;> simp [getAuthors, h]
  · cases h : getTerms d (prefixOf "year".data) <;> simp [getYear, h]

/-! ## Claim C3: add_file on an already-indexed path -/

/-- A database over root `/r` already holding a document indexed under the
exact path term `Pdocs/a.pdf`. -/
def dbC3 : DB :=
  ⟨"/r".data, 1, [⟨1, ["Pdocs/a.pdf".data], []⟩]⟩

/-- C3: the path `docs/a.pdf` is already present by exact path term, yet
`add_file` does not fail with `ImportPathExists`: its first statement
`base, full = self.db._basename_for_path(path)` unpacks the single string
`_basename_for_path` returns into two names, which raises `ValueError` (or
`TypeError` for `None`) before the duplicate check is ever reached. -/
theorem spec_C3_code :
    (docForPath dbC3 "docs/a.pdf".data).map XDoc.docid = some 1 ∧
    addFile (fun _ _ => []) (fun _ => "text".data) dbC3 (documentInit dbC3)
      "docs/a.pdf".data = Except.error PyErr.valueError :=
  ⟨rfl, rfl⟩

end Xapers
